import Mathlib

/-!
Verification of the XEP-0333 chat-marker plugin (markers/utils.js).

The JavaScript source is embedded shallowly:

* Backbone model attributes become structure fields; string-keyed JS
  objects (such as `marked_by`) become association lists over `String`
  with JS-object semantics (`objGet` / `objSet` / `objDelete`).
* The marker collection `chat.markers` becomes a `List ChatMarker`;
  `collection.get(id)` becomes `List.find?` on the `id` field,
  `model.save` becomes in-place replacement (`updateFirst`), and
  `collection.add` appends.
* The implicit globals (`_converse.bare_jid`, the two settings) are
  threaded through a `Ctx` record; the wall clock consulted by
  `new Date()` is an explicit `now : Nat` parameter (epoch milliseconds).
* A thrown `TypeError` becomes `Except.error`; JS default parameters are
  written out explicitly at every call site that omits the argument.
-/

/-- Association-list lookup with the semantics of reading a property of a
JS object: the first binding for the key, `none` when absent. -/
def objGet {α : Type} : List (String × α) → String → Option α
  | [], _ => none
  | (k', v') :: rest, k => if k' = k then some v' else objGet rest k

/-- Association-list update with the semantics of `Object.assign` /
property assignment: an existing key keeps its position and is
overwritten, a new key is appended at the end. -/
def objSet {α : Type} : List (String × α) → String → α → List (String × α)
  | [], k, v => [(k, v)]
  | (k', v') :: rest, k, v =>
    if k' = k then (k, v) :: rest else (k', v') :: objSet rest k v

/-- Association-list removal with the semantics of the JS `delete`
operator on an object property. -/
def objDelete {α : Type} : List (String × α) → String → List (String × α)
  | [], _ => []
  | (k', v') :: rest, k =>
    if k' = k then objDelete rest k else (k', v') :: objDelete rest k

/-- Truthiness of a possibly-absent JS string: `undefined`, `null` and the
empty string are falsy, every other string is truthy. -/
def truthyStr (o : Option String) : Bool :=
  match o with
  | some s => s != ""
  | none => false

/-- JS-style `x || y` on a possibly-absent string (`x` falsy gives `y`). -/
def jsOr (a : Option String) (b : String) : String :=
  match a with
  | some s => if s = "" then b else s
  | none => b

/-- JS-style truthiness filter: keeps a string only when it is truthy,
mirroring guards of the form `if (x)` on an optional string attribute. -/
def jsTruthy (o : Option String) : Option String :=
  match o with
  | some s => if s = "" then none else some s
  | none => none

/-- Characters of a JID up to (excluding) the first slash. -/
def bareJidChars : List Char → List Char
  | [] => []
  | c :: rest => if c = '/' then [] else c :: bareJidChars rest

/-- Embeds `Strophe.getBareJidFromJid`: strips the resource part (the
suffix starting at the first slash) from a JID. -/
def getBareJidFromJid (jid : String) : String :=
  String.mk (bareJidChars jid.data)

/-- Embeds `(new Date()).setMilliseconds(ms(message.time) + 1)` from
`addChatMarker` (line 65): the current date `now` has its
milliseconds field replaced by the message timestamp's milliseconds
plus one; `setMilliseconds(1000)` carries over into the seconds.
Both dates are epoch milliseconds. -/
def jsSetMilliseconds (now msg_time : Nat) : Nat :=
  now - now % 1000 + (msg_time % 1000 + 1)

/-- Modelled from the spec: `MARKER_TYPES` lives in the plugin's
`constants.js`, which is absent from the sources; the spec fixes the
closed level set `received, displayed, acknowledged`, totally ordered
by a rank table in that order. -/
def MARKER_TYPES : List (String × Nat) :=
  [("received", 0), ("displayed", 1), ("acknowledged", 2)]

/-- Embeds `Object.keys(MARKER_TYPES)`. -/
def markerTypeKeys : List String := MARKER_TYPES.map Prod.fst

/-- Embeds the JS lookup `MARKER_TYPES[type]` (`none` for `undefined`). -/
def markerRank (t : String) : Option Nat := objGet MARKER_TYPES t

/-- One message model; fields are the attributes the plugin reads.
`stanza_ids` collects the attributes named `stanza_id <jid>`, keyed by
the scoping JID; `marked_fields` collects the list-valued bookkeeping
attributes written by `sendMarkerForMessage`. -/
structure Message where
  type : String
  from_ : String
  msgid : String
  stanza_ids : List (String × String)
  time : Nat
  is_markable : Bool
  marker : Option String
  marked_fields : List (String × List String)
deriving DecidableEq

/-- One ChatMarker model: the acknowledged message's derived id, the
`marked_by` JID-to-level mapping, and the sort timestamp. -/
structure ChatMarker where
  id : String
  marked_by : List (String × String)
  time : Nat
deriving DecidableEq

/-- One chat (ChatBox or ChatRoom) with the attributes the plugin reads,
its marker store and its message collection (oldest first). -/
structure Chat where
  type : String
  jid : String
  occupants : Nat
  markers : List ChatMarker
  messages : List Message
deriving DecidableEq

/-- The implicit globals: `_converse.bare_jid` and the two settings
`muc_chat_markers_limit` and `send_chat_markers`. -/
structure Ctx where
  bare_jid : String
  muc_chat_markers_limit : Nat
  send_chat_markers : List String
deriving DecidableEq

/-- Embeds `_converse.CHATROOMS_TYPE`. -/
def CHATROOMS_TYPE : String := "chatroom"

/-- Embeds `getMessageIdToMark` (lines 10-16): for a groupchat message
prefer the `stanza_id <muc-jid>` attribute (JS `||` falls through on a
falsy value), otherwise the client-generated `msgid`. -/
def getMessageIdToMark (message : Message) : String :=
  if message.type = "groupchat" then
    let muc_jid := getBareJidFromJid message.from_
    jsOr (objGet message.stanza_ids muc_jid) message.msgid
  else
    message.msgid

/-- Embeds the body of `ChatMarker.removeMarkerJID` applied to the result
of `chat.markers.findWhere(predicate)` (lines 59-60). The predicate is
truthiness of `m.get('marked_by')?.[by_jid]`. Modelled from the spec
for the part in `marker.js`, which is absent from the sources: removing
`by_jid` from `marked_by` and, when the mapping becomes empty,
destroying the record (removing it from the collection). -/
def removeJidFromFirstMarker : List ChatMarker → String → List ChatMarker
  | [], _ => []
  | m :: rest, jid =>
    if truthyStr (objGet m.marked_by jid) then
      let marked_by := objDelete m.marked_by jid
      if marked_by.isEmpty then rest
      else { m with marked_by := marked_by } :: rest
    else
      m :: removeJidFromFirstMarker rest jid

/-- Embeds a Backbone `model.save` on the model found by id: replaces the
first element with the given id. -/
def updateFirst : List ChatMarker → String → ChatMarker → List ChatMarker
  | [], _, _ => []
  | m :: rest, key, m' =>
    if m.id = key then m' :: rest else m :: updateFirst rest key m'

/-- Embeds `addChatMarker` after its room-growth guard (lines 44-68):
validate the marker type, then either merge `by_jid: type` into the
existing record for the derived message id, or relocate `by_jid` away
from its previous record and insert a fresh record sorted just after
the message. -/
def addChatMarkerCore (now : Nat) (chat : Chat) (message : Message)
    (by_jid : String) (type : String) :
    Except String (List ChatMarker × Option ChatMarker) :=
  if type ∉ markerTypeKeys then
    .error "Invalid XEP-0333 chat marker type"
  else
    let marked_message_id := getMessageIdToMark message
    match chat.markers.find? (fun m => m.id == marked_message_id) with
    | some marked =>
        let marked_by := objSet marked.marked_by by_jid type
        let m' := { marked with marked_by := marked_by }
        .ok (updateFirst chat.markers marked_message_id m', some m')
    | none =>
        let ms := removeJidFromFirstMarker chat.markers by_jid
        let newm : ChatMarker :=
          { id := marked_message_id
            marked_by := [(by_jid, type)]
            time := jsSetMilliseconds now message.time }
        .ok (ms ++ [newm], some newm)

/-- Embeds `addChatMarker` (lines 30-69). In a chatroom whose occupant
count exceeds `muc_chat_markers_limit`, a marker by anyone but the
local user is dropped (returns `undefined`, store untouched); otherwise
the core algorithm runs. The JS default `type='displayed'` is written
explicitly at every call site below. -/
def addChatMarker (ctx : Ctx) (now : Nat) (chat : Chat) (message : Message)
    (by_jid : String) (type : String) :
    Except String (List ChatMarker × Option ChatMarker) :=
  if chat.type = CHATROOMS_TYPE ∧ by_jid ≠ ctx.bare_jid ∧
     chat.occupants > ctx.muc_chat_markers_limit then
    .ok (chat.markers, none)
  else
    addChatMarkerCore now chat message by_jid type

/-- Marker store resulting from a call to `addChatMarker`; a thrown
`TypeError` leaves the store as it was. -/
def storeAfter (ctx : Ctx) (now : Nat) (chat : Chat) (message : Message)
    (by_jid : String) (type : String) : List ChatMarker :=
  match addChatMarker ctx now chat message by_jid type with
  | .ok (s, _) => s
  | .error _ => chat.markers

/-- One outbound XEP-0333 stanza as built by `sendChatMarker`
(lines 79-87): destination, the id attribute of the marker child
element, the marker element's name, and the message type attribute.
The generated unique stanza id and the connection JID are omitted. -/
structure Stanza where
  to_jid : String
  marker_id : String
  marker_type : String
  msg_type : String
deriving DecidableEq

/-- Embeds `sendChatMarker` (lines 79-87); `msg_type ? msg_type : 'chat'`
falls back to `chat` when the message type attribute is falsy. -/
def sendChatMarker (to_jid id type msg_type : String) : Stanza :=
  { to_jid := to_jid
    marker_id := id
    marker_type := type
    msg_type := if msg_type = "" then "chat" else msg_type }

/-- Embeds `sendMarkerForMessage` (lines 114-127): when the level is
enabled and the message is markable (or `force`), emit a marker stanza
and record the local user on the message under the key actually
written by line 123 (the object literal `{field_name: ...}` uses the
literal property name `field_name`, while line 122 reads the computed
name `marked_<type>`). Returns the flag, the (possibly updated)
message, and the stanzas handed to the network. -/
def sendMarkerForMessage (ctx : Ctx) (msg : Option Message)
    (type : String) (force : Bool) : Bool × Option Message × List Stanza :=
  match msg with
  | none => (false, none, [])
  | some m =>
    if type ∉ ctx.send_chat_markers then (false, some m, [])
    else if m.is_markable || force then
      let from_jid := getBareJidFromJid m.from_
      let stanza := sendChatMarker from_jid m.msgid type m.type
      let field_name := "marked_" ++ type
      let marked := (objGet m.marked_fields field_name).getD []
      let m' :=
        { m with marked_fields :=
            objSet m.marked_fields "field_name" (marked ++ [ctx.bare_jid]) }
      (true, some m', [stanza])
    else (false, some m, [])

/-- Embeds the condition of line 146,
`chat.markers.get(mid)?.get('marked_by')?.[_converse.bare_jid] ?? -1 > MARKER_TYPES[type]`.
In JS, `>` binds tighter than `??`, so this is
`entry ?? (-1 > MARKER_TYPES[type])`: with an entry present the guard
is the truthiness of that level string; with no entry it is
`-1 > rank`, which is false for every rank (and for `undefined`). -/
def mucAlreadyMarkedCond (entry : Option String) (type : String) : Bool :=
  match entry with
  | some v => v != ""
  | none =>
    match markerRank type with
    | some r => decide ((-1 : Int) > (r : Int))
    | none => false

/-- Embeds `sendMarkerForMUCMessage` (lines 136-162): validate the type,
check the level is enabled and the message markable, apply the
duplicate/rank guard of line 146, require a room-scoped stanza id
(logging and skipping when absent), then emit the stanza. -/
def sendMarkerForMUCMessage (ctx : Ctx) (chat : Chat) (msg : Option Message)
    (type : String) : Except String (Bool × List Stanza) :=
  if type ∉ markerTypeKeys then
    .error "Invalid XEP-0333 chat marker type"
  else
    match msg with
    | none => .ok (false, [])
    | some m =>
      if type ∉ ctx.send_chat_markers then .ok (false, [])
      else if m.is_markable then
        let mid := getMessageIdToMark m
        let entry := (chat.markers.find? (fun mk => mk.id == mid)).bind
          (fun mk => objGet mk.marked_by ctx.bare_jid)
        if mucAlreadyMarkedCond entry type then .ok (false, [])
        else
          match jsTruthy (objGet m.stanza_ids chat.jid) with
          | none => .ok (false, [])
          | some id =>
            let from_jid := getBareJidFromJid m.from_
            .ok (true, [sendChatMarker from_jid id type m.type])
      else .ok (false, [])

/-- Embeds `sendMarkerForLastMessage` (lines 97-102): find the newest
eligible message, send a marker for it, and on success call
`addChatMarker(chat, msg, _converse.bare_jid)` — with the `type`
argument omitted, so the JS default `'displayed'` applies no matter
which level was transmitted. Returns the marker store and the
emitted stanzas. -/
def sendMarkerForLastMessage (ctx : Ctx) (now : Nat) (chat : Chat)
    (type : String) (force : Bool) :
    Except String (List ChatMarker × List Stanza) :=
  let msgs := chat.messages.reverse
  match msgs.find? (fun m => force || m.is_markable) with
  | none => .ok (chat.markers, [])
  | some msg =>
    match sendMarkerForMessage ctx (some msg) type force with
    | (true, msg', stanzas) =>
      match addChatMarker ctx now chat (msg'.getD msg) ctx.bare_jid "displayed" with
      | .ok (s, _) => .ok (s, stanzas)
      | .error e => .error e
    | (false, _, _) => .ok (chat.markers, [])

/-- Arguments of the one `addChatMarker` invocation inside
`handleChatMarker` (line 193): the matched message, the `by_jid`
argument and the `type` argument as passed (`none` when the attribute
was `undefined`, in which case the JS default applies). -/
structure ReconcileCall where
  msg : Message
  by_jid : String
  marker_type : Option String
deriving DecidableEq

/-- Embeds `handleChatMarker` (lines 185-197): for a stanza addressed to
the local user that carries a truthy `marker_id`, find the message
with that `msgid` and, when found, call
`addChatMarker(model, message, message.get('from'), message.get('marker'))`;
return `true` whether or not a message was found, and the pass-through
`handled` flag otherwise. Also returns the resulting marker store and
a record of the `addChatMarker` invocation made, if any. -/
def handleChatMarker (ctx : Ctx) (now : Nat) (model : Chat)
    (attrs_from attrs_to : String) (attrs_marker_id attrs_marker : Option String)
    (handled : Bool) :
    Except String (Bool × List ChatMarker × Option ReconcileCall) :=
  let to_bare_jid := getBareJidFromJid attrs_to
  if to_bare_jid ≠ ctx.bare_jid then .ok (handled, model.markers, none)
  else
    match jsTruthy attrs_marker_id with
    | some marker_id =>
      match model.messages.find? (fun m => m.msgid == marker_id) with
      | some message =>
        let ty :=
          match message.marker with
          | some t => t
          | none => "displayed"
        match addChatMarker ctx now model message message.from_ ty with
        | .ok (s, _) => .ok (true, s, some ⟨message, message.from_, message.marker⟩)
        | .error e => .error e
      | none => .ok (true, model.markers, none)
    | none => .ok (handled, model.markers, none)

/-- Truthy membership of a participant in a marker's `marked_by`
mapping, the notion used by the `findWhere` predicate of line 59. -/
def isMarkedBy (m : ChatMarker) (jid : String) : Bool :=
  truthyStr (objGet m.marked_by jid)

/-- Number of marker records in a store whose `marked_by` contains the
given participant. -/
def countMarked (markers : List ChatMarker) (jid : String) : Nat :=
  (markers.filter (fun m => isMarkedBy m jid)).length

/-- Level recorded for a participant on the record for a given message
key, if any. -/
def markedLevelInStore (store : List ChatMarker) (key jid : String) :
    Option String :=
  (store.find? (fun m => m.id == key)).bind (fun m => objGet m.marked_by jid)

/-- Message state after the local bookkeeping write of a successful
`sendMarkerForMessage` (lines 121-123): the read at line 122 uses the
computed key `marked_<type>`, the write at line 123 the literal object
key `field_name`. -/
def msgAfterSend (ctx : Ctx) (m : Message) (type : String) : Message :=
  { m with marked_fields :=
      (objSet m.marked_fields "field_name"
        (((objGet m.marked_fields ("marked_" ++ type)).getD [])
          ++ [ctx.bare_jid])) }

/-- Fixture: a session with local user `me@x` and default-like settings. -/
def exCtx : Ctx := ⟨"me@x", 10, ["received", "displayed", "acknowledged"]⟩

/-- Fixture: a markable direct-chat message with client id `m1`. -/
def exMsg1 : Message := ⟨"chat", "peer@x/res", "m1", [], 0, true, none, []⟩

/-- Fixture: a markable direct-chat message with client id `m2`. -/
def exMsg2 : Message := ⟨"chat", "peer@x/res", "m2", [], 0, true, none, []⟩

/-- Fixture: a direct chat holding `exMsg1` and `exMsg2`, no markers yet. -/
def exChat : Chat := ⟨"chat", "peer@x", 0, [], [exMsg1, exMsg2]⟩

/-- Fixture: a markable room message with room-scoped stanza id `s1`. -/
def exRoomMsg : Message :=
  ⟨"groupchat", "room@muc/alice", "mm1", [("room@muc", "s1")], 0, true, none, []⟩

/-- Fixture: a small room whose store already credits the local user at
level `received` for the message with stanza id `s1`. -/
def exRoomChat : Chat :=
  ⟨"chatroom", "room@muc", 3, [⟨"s1", [("me@x", "received")], 0⟩], [exRoomMsg]⟩

/-- Fixture: a room whose occupant count 11 exceeds the configured
ceiling 10 of `exCtx`. -/
def exBigRoomChat : Chat := ⟨"chatroom", "room@muc", 11, [], [exRoomMsg]⟩

/-- Fixture: the message `handleChatMarker` matches by `msgid`. -/
def exMsgH : Message := ⟨"chat", "alice@x/res", "msgidX", [], 0, true, none, []⟩

/-- Fixture: the conversation receiving an inbound marker stanza. -/
def exChatH : Chat := ⟨"chat", "alice@x", 0, [], [exMsgH]⟩

theorem objGet_objSet_self {α : Type} (l : List (String × α)) (k : String) (v : α) :
    objGet (objSet l k v) k = some v := by
  induction l with
  | nil => simp [objGet, objSet]
  | cons p rest ih =>
    obtain ⟨k', v'⟩ := p
    by_cases h : k' = k
    · simp [objGet, objSet, h]
    · simp [objGet, objSet, h, ih]

theorem objGet_objSet_ne {α : Type} (l : List (String × α)) (k j : String) (v : α)
    (hj : j ≠ k) : objGet (objSet l k v) j = objGet l j := by
  have hkj : ¬ k = j := fun h => hj h.symm
  induction l with
  | nil => simp [objGet, objSet, hkj]
  | cons p rest ih =>
    obtain ⟨k', v'⟩ := p
    by_cases h : k' = k
    · subst h
      simp [objGet, objSet, hkj]
    · simp only [objSet, if_neg h]
      by_cases h2 : k' = j <;> simp [objGet, h2, ih]

theorem objSet_objSet_same {α : Type} (l : List (String × α)) (k : String) (v : α) :
    objSet (objSet l k v) k v = objSet l k v := by
  induction l with
  | nil => simp [objSet]
  | cons p rest ih =>
    obtain ⟨k', v'⟩ := p
    by_cases h : k' = k
    · simp [objSet, h]
    · simp [objSet, h, ih]

theorem objGet_objDelete_self {α : Type} (l : List (String × α)) (k : String) :
    objGet (objDelete l k) k = none := by
  induction l with
  | nil => simp [objGet, objDelete]
  | cons p rest ih =>
    obtain ⟨k', v'⟩ := p
    by_cases h : k' = k
    · simp [objDelete, h, ih]
    · simp [objGet, objDelete, h, ih]

theorem objGet_objDelete_ne {α : Type} (l : List (String × α)) (k j : String)
    (hj : j ≠ k) : objGet (objDelete l k) j = objGet l j := by
  have hkj : ¬ k = j := fun h => hj h.symm
  induction l with
  | nil => simp [objDelete]
  | cons p rest ih =>
    obtain ⟨k', v'⟩ := p
    by_cases h : k' = k
    · subst h
      simp [objGet, objDelete, hkj, ih]
    · by_cases h2 : k' = j
      · subst h2
        simp [objGet, objDelete, h, hj]
      · simp [objGet, objDelete, h, h2, ih]

theorem objGet_of_objDelete_nil {α : Type} (l : List (String × α)) (k j : String)
    (h : objDelete l k = []) (hj : j ≠ k) : objGet l j = none := by
  have hkj : ¬ k = j := fun hh => hj hh.symm
  induction l with
  | nil => rfl
  | cons p rest ih =>
    obtain ⟨k', v'⟩ := p
    by_cases hk : k' = k
    · subst hk
      simp only [objDelete, if_pos rfl] at h
      simp [objGet, hkj, ih h]
    · simp [objDelete, hk] at h

theorem find?_updateFirst (l : List ChatMarker) (key : String) (m' found : ChatMarker)
    (hf : l.find? (fun m => m.id == key) = some found) (hm : m'.id = key) :
    (updateFirst l key m').find? (fun m => m.id == key) = some m' := by
  induction l with
  | nil => simp [List.find?] at hf
  | cons m rest ih =>
    by_cases h : m.id = key
    · simp [updateFirst, h, List.find?, hm]
    · have hb : (m.id == key) = false := by simp [h]
      simp only [List.find?, hb] at hf
      simp only [updateFirst, if_neg h, List.find?, hb]
      exact ih hf

theorem updateFirst_idem (l : List ChatMarker) (key : String) (m' : ChatMarker)
    (hm : m'.id = key) :
    updateFirst (updateFirst l key m') key m' = updateFirst l key m' := by
  induction l with
  | nil => simp [updateFirst]
  | cons m rest ih =>
    by_cases h : m.id = key
    · simp [updateFirst, h, hm]
    · simp [updateFirst, h, ih]

theorem updateFirst_append_self (a b : List ChatMarker) (key : String) (m : ChatMarker)
    (ha : ∀ x ∈ a, x.id ≠ key) (hm : m.id = key) :
    updateFirst (a ++ m :: b) key m = a ++ m :: b := by
  induction a with
  | nil => simp [updateFirst, hm]
  | cons x rest ih =>
    have hx := ha x (List.mem_cons_self _ _)
    simp [updateFirst, hx, ih (fun y hy => ha y (List.mem_cons_of_mem _ hy))]

theorem removeJid_id_mem (l : List ChatMarker) (jid : String) :
    ∀ x ∈ removeJidFromFirstMarker l jid, ∃ y ∈ l, x.id = y.id := by
  induction l with
  | nil => simp [removeJidFromFirstMarker]
  | cons m rest ih =>
    intro x hx
    by_cases h : truthyStr (objGet m.marked_by jid)
    · rw [removeJidFromFirstMarker, if_pos h] at hx
      by_cases he : (objDelete m.marked_by jid).isEmpty
      · rw [if_pos he] at hx
        exact ⟨x, List.mem_cons_of_mem _ hx, rfl⟩
      · rw [if_neg he] at hx
        rcases List.mem_cons.1 hx with h1 | h1
        · exact ⟨m, List.mem_cons_self _ _, by rw [h1]⟩
        · exact ⟨x, List.mem_cons_of_mem _ h1, rfl⟩
    · rw [removeJidFromFirstMarker, if_neg h] at hx
      rcases List.mem_cons.1 hx with h1 | h1
      · exact ⟨m, List.mem_cons_self _ _, by rw [h1]⟩
      · obtain ⟨y, hy, hxy⟩ := ih x h1
        exact ⟨y, List.mem_cons_of_mem _ hy, hxy⟩

theorem find?_removeJid_none (l : List ChatMarker) (jid key : String)
    (hf : l.find? (fun m => m.id == key) = none) :
    (removeJidFromFirstMarker l jid).find? (fun m => m.id == key) = none := by
  rw [List.find?_eq_none] at hf ⊢
  intro x hx
  obtain ⟨y, hy, hxy⟩ := removeJid_id_mem l jid x hx
  have := hf y hy
  simp only [beq_iff_eq] at this ⊢
  rw [hxy]
  exact this

theorem find?_append_none {α : Type} (l₁ l₂ : List α) (p : α → Bool)
    (h : l₁.find? p = none) : (l₁ ++ l₂).find? p = l₂.find? p := by
  induction l₁ with
  | nil => rfl
  | cons a l ih =>
    cases hpa : p a with
    | true =>
      simp only [List.find?, hpa] at h
      exact Option.noConfusion h
    | false =>
      simp only [List.find?, hpa] at h
      simp only [List.cons_append, List.find?, hpa]
      exact ih h

theorem countMarked_nil (jid : String) : countMarked [] jid = 0 := rfl

theorem countMarked_cons (m : ChatMarker) (l : List ChatMarker) (jid : String) :
    countMarked (m :: l) jid
      = (if isMarkedBy m jid then 1 else 0) + countMarked l jid := by
  by_cases h : isMarkedBy m jid
  · simp [countMarked, List.filter_cons, h, Nat.add_comm]
  · simp [countMarked, List.filter_cons, h]

theorem countMarked_append (a b : List ChatMarker) (jid : String) :
    countMarked (a ++ b) jid = countMarked a jid + countMarked b jid := by
  simp [countMarked, List.filter_append]

theorem countMarked_eq_zero (l : List ChatMarker) (jid : String) :
    countMarked l jid = 0 ↔ ∀ m ∈ l, isMarkedBy m jid = false := by
  simp [countMarked, List.length_eq_zero, List.filter_eq_nil_iff]

theorem countMarked_pos_of_mem {l : List ChatMarker} {m : ChatMarker} {P : String}
    (hmem : m ∈ l) (hm : isMarkedBy m P = true) : 1 ≤ countMarked l P := by
  induction l with
  | nil => cases hmem
  | cons x rest ih =>
    rcases List.mem_cons.1 hmem with h | h
    · subst h
      simp [countMarked_cons, hm]
    · have := ih h
      rw [countMarked_cons]
      omega

theorem countMarked_removeJid_other (l : List ChatMarker) (jid P : String)
    (hne : P ≠ jid) :
    countMarked (removeJidFromFirstMarker l jid) P = countMarked l P := by
  induction l with
  | nil => rfl
  | cons m rest ih =>
    by_cases h : truthyStr (objGet m.marked_by jid)
    · by_cases he : (objDelete m.marked_by jid).isEmpty
      · have hnil : objDelete m.marked_by jid = [] := List.isEmpty_iff.1 he
        have hP : objGet m.marked_by P = none :=
          objGet_of_objDelete_nil _ _ _ hnil hne
        simp only [removeJidFromFirstMarker, if_pos h, if_pos he]
        rw [countMarked_cons]
        simp [isMarkedBy, hP, truthyStr]
      · simp only [removeJidFromFirstMarker, if_pos h, if_neg he]
        rw [countMarked_cons, countMarked_cons]
        have hsame : isMarkedBy { m with marked_by := objDelete m.marked_by jid } P
            = isMarkedBy m P := by
          simp [isMarkedBy, objGet_objDelete_ne _ _ _ hne]
        rw [hsame]
    · simp only [removeJidFromFirstMarker, if_neg h]
      rw [countMarked_cons, countMarked_cons, ih]

theorem countMarked_removeJid_self (l : List ChatMarker) (P : String)
    (h : countMarked l P ≤ 1) :
    countMarked (removeJidFromFirstMarker l P) P = 0 := by
  induction l with
  | nil => rfl
  | cons m rest ih =>
    by_cases hm : truthyStr (objGet m.marked_by P)
    · have hrest : countMarked rest P = 0 := by
        rw [countMarked_cons] at h
        simp only [isMarkedBy, hm, if_true] at h
        omega
      by_cases he : (objDelete m.marked_by P).isEmpty
      · simp only [removeJidFromFirstMarker, if_pos hm, if_pos he]
        exact hrest
      · simp only [removeJidFromFirstMarker, if_pos hm, if_neg he]
        rw [countMarked_cons, hrest]
        simp [isMarkedBy, objGet_objDelete_self, truthyStr]
    · simp only [removeJidFromFirstMarker, if_neg hm]
      have hrest : countMarked rest P ≤ 1 := by
        rw [countMarked_cons] at h
        omega
      rw [countMarked_cons, ih hrest]
      simp [isMarkedBy, hm]

theorem countMarked_updateFirst_all_false (l : List ChatMarker) (key : String)
    (m' : ChatMarker) (P : String) (h : ∀ m ∈ l, isMarkedBy m P = false) :
    countMarked (updateFirst l key m') P ≤ 1 := by
  induction l with
  | nil => simp [updateFirst, countMarked_nil]
  | cons m rest ih =>
    by_cases hk : m.id = key
    · have hrest : countMarked rest P = 0 :=
        (countMarked_eq_zero _ _).2 (fun x hx => h x (List.mem_cons_of_mem _ hx))
      simp only [updateFirst, if_pos hk]
      rw [countMarked_cons, hrest]
      by_cases hb : isMarkedBy m' P <;> simp [hb]
    · simp only [updateFirst, if_neg hk]
      rw [countMarked_cons, h m (List.mem_cons_self _ _)]
      simpa using ih (fun x hx => h x (List.mem_cons_of_mem _ hx))

theorem countMarked_updateFirst_found (l : List ChatMarker) (key : String)
    (m' found : ChatMarker) (P : String)
    (h1 : countMarked l P ≤ 1)
    (hf : l.find? (fun m => m.id == key) = some found)
    (hm : isMarkedBy found P = true) :
    countMarked (updateFirst l key m') P ≤ 1 := by
  induction l with
  | nil => exact Option.noConfusion hf
  | cons m rest ih =>
    by_cases hk : m.id = key
    · have hb : (m.id == key) = true := by simp [hk]
      have hfm : m = found := by
        simp only [List.find?, hb] at hf
        exact Option.some.inj hf
      have hrest : countMarked rest P = 0 := by
        rw [countMarked_cons, hfm] at h1
        simp only [hm, if_true] at h1
        omega
      simp only [updateFirst, if_pos hk]
      rw [countMarked_cons, hrest]
      by_cases hb' : isMarkedBy m' P <;> simp [hb']
    · have hb : (m.id == key) = false := by simp [hk]
      simp only [List.find?, hb] at hf
      simp only [updateFirst, if_neg hk]
      rw [countMarked_cons] at h1 ⊢
      by_cases hbm : isMarkedBy m P
      · have hmem := List.mem_of_find?_eq_some hf
        have hpos := countMarked_pos_of_mem hmem hm
        simp only [hbm, if_true] at h1
        omega
      · simp [hbm] at h1 ⊢
        exact ih (by omega) hf

theorem countMarked_updateFirst_of_eq (l : List ChatMarker) (key : String)
    (m' found : ChatMarker) (P : String)
    (hf : l.find? (fun m => m.id == key) = some found)
    (heq : isMarkedBy m' P = isMarkedBy found P) :
    countMarked (updateFirst l key m') P = countMarked l P := by
  induction l with
  | nil => exact Option.noConfusion hf
  | cons m rest ih =>
    by_cases hk : m.id = key
    · have hb : (m.id == key) = true := by simp [hk]
      have hfm : m = found := by
        simp only [List.find?, hb] at hf
        exact Option.some.inj hf
      simp only [updateFirst, if_pos hk]
      rw [countMarked_cons, countMarked_cons, heq, hfm]
    · have hb : (m.id == key) = false := by simp [hk]
      simp only [List.find?, hb] at hf
      simp only [updateFirst, if_neg hk]
      rw [countMarked_cons, countMarked_cons, ih hf]

/-- C1, counterexample. Starting from an empty store: participant `p@x`
marks `m1` (new record), `q@x` marks `m2` (new record), then `p@x`
marks `m2`. The third call takes the merge branch of `addChatMarker`,
which does not remove `p@x` from the record for `m1`, so `p@x` ends up
in the `marked_by` mapping of two records — the claimed invariant is
violated by this concrete call sequence. -/
theorem C1_counterexample_two_records_for_one_participant :
    countMarked
      (storeAfter exCtx 0
        ({ exChat with markers :=
            (storeAfter exCtx 0
              ({ exChat with markers :=
                  (storeAfter exCtx 0 exChat exMsg1 "p@x" "displayed") })
              exMsg2 "q@x" "displayed") })
        exMsg2 "p@x" "displayed") "p@x" = 2 := rfl

/-- C2: the claim is that a room marker send at a strictly higher level
than the recorded one succeeds. In `exRoomChat`, the local user is
recorded at `received` (rank 0) for the message with stanza id `s1`;
sending at `displayed` (rank 1) should therefore succeed. The code
returns `false` and sends nothing: in the guard of line 146, `>` binds
tighter than `??`, so any existing (truthy) entry suppresses the send
regardless of its rank. -/
theorem C2_sendMarkerForMUCMessage_higher_level_suppressed :
    markerRank "received" = some 0 ∧ markerRank "displayed" = some 1 ∧
    markedLevelInStore exRoomChat.markers (getMessageIdToMark exRoomMsg) "me@x"
      = some "received" ∧
    exRoomMsg.is_markable = true ∧ "displayed" ∈ exCtx.send_chat_markers ∧
    jsTruthy (objGet exRoomMsg.stanza_ids exRoomChat.jid) = some "s1" ∧
    sendMarkerForMUCMessage exCtx exRoomChat (some exRoomMsg) "displayed"
      = .ok (false, []) :=
  ⟨rfl, rfl, rfl, rfl, by decide, rfl, rfl⟩

/-- C3: the claim is that the handler calls the reconciliation algorithm
with the incoming stanza's sender (`bob@example`) and the incoming
marker level. On this concrete input the handler matches message
`msgidX`, reports handled (`true`), but invokes `addChatMarker` with
the matched message's own `from` attribute (`alice@x/res`) and its own
(absent) `marker` attribute — line 193 reads `message.get('from')` and
`message.get('marker')` instead of the incoming attributes, which are
never read. -/
theorem C3_handleChatMarker_uses_message_attributes :
    handleChatMarker exCtx 0 exChatH "bob@example/res" "me@x/r2"
        (some "msgidX") (some "received") false
      = .ok (true, [⟨"msgidX", [("alice@x/res", "displayed")], 1⟩],
             some ⟨exMsgH, "alice@x/res", none⟩) ∧
    getBareJidFromJid "bob@example/res" = "bob@example" ∧
    "alice@x/res" ≠ "bob@example" :=
  ⟨rfl, rfl, by decide⟩

/-- C7: the claim is that a successful send records the local user under
the level-specific field `marked_<level>` of the message. On this
concrete successful `displayed` send the function does return `true`
and transmit the stanza, but line 123 writes the object literal key
`field_name` instead of the computed `marked_displayed` key, so the
level-specific field stays unset. -/
theorem C7_sendMarkerForMessage_literal_field_name :
    sendMarkerForMessage exCtx (some exMsg1) "displayed" false
      = (true,
         some { exMsg1 with marked_fields := [("field_name", ["me@x"])] },
         [⟨"peer@x", "m1", "displayed", "chat"⟩]) ∧
    objGet [(("field_name" : String), ["me@x"])] "marked_displayed" = none :=
  ⟨rfl, rfl⟩

/-- C8: the claim is that a newly created Marker Record's time equals the
acknowledged message's timestamp plus one millisecond. For a message
with timestamp 0 reconciled at wall-clock time 5000, the created
record carries time 5001 (the current date with its milliseconds field
replaced), not 1 — line 65 applies `setMilliseconds` to `new Date()`
rather than to the message's own date. -/
theorem C8_new_marker_time_not_message_time_plus_one :
    (storeAfter exCtx 5000 exChat exMsg1 "p@x" "displayed").map
        (fun m => m.time) = [5001] ∧
    exMsg1.time + 1 = 1 ∧ (5001 : Nat) ≠ 1 :=
  ⟨rfl, rfl, by decide⟩

/-- C9, counterexample. The claim is that every call with a level outside
the closed set halts with a `TypeError`. In a room of 11 occupants
with ceiling 10 and a non-local acknowledger, `addChatMarker` with the
invalid level `bogus` returns normally (no error, store unchanged):
the room-growth guard of lines 31-42 returns before the type check of
line 44 runs. -/
theorem C9_counterexample_invalid_level_not_rejected_under_guard :
    "bogus" ∉ markerTypeKeys ∧
    exBigRoomChat.occupants > exCtx.muc_chat_markers_limit ∧
    addChatMarker exCtx 0 exBigRoomChat exRoomMsg "other@x" "bogus"
      = .ok (exBigRoomChat.markers, none) :=
  ⟨by decide, by decide, rfl⟩

/-- C4: in a multi-party room whose occupant count exceeds the configured
ceiling, `addChatMarker` with a non-local acknowledging participant
returns nothing and leaves the marker store unchanged, while with the
local participant as acknowledger it still applies the normal
reconciliation algorithm (`addChatMarkerCore`). -/
theorem C4_room_growth_guard (ctx : Ctx) (now : Nat) (chat : Chat)
    (message : Message) (by_jid type : String)
    (hroom : chat.type = CHATROOMS_TYPE)
    (hcount : chat.occupants > ctx.muc_chat_markers_limit) :
    (by_jid ≠ ctx.bare_jid →
      addChatMarker ctx now chat message by_jid type
        = .ok (chat.markers, none)) ∧
    (by_jid = ctx.bare_jid →
      addChatMarker ctx now chat message by_jid type
        = addChatMarkerCore now chat message by_jid type) := by
  constructor
  · intro h
    unfold addChatMarker
    rw [if_pos ⟨hroom, h, hcount⟩]
  · intro h
    unfold addChatMarker
    rw [if_neg]
    rintro ⟨-, h2, -⟩
    exact h2 h

/-- C4 witness: the guard and the local-user pass-through at a concrete
room of 11 occupants against a ceiling of 10. -/
theorem C4_room_growth_guard_witness :
    addChatMarker exCtx 0 exBigRoomChat exRoomMsg "other@x" "displayed"
      = .ok (exBigRoomChat.markers, none) ∧
    addChatMarker exCtx 0 exBigRoomChat exRoomMsg "me@x" "displayed"
      = addChatMarkerCore 0 exBigRoomChat exRoomMsg "me@x" "displayed" :=
  ⟨(C4_room_growth_guard exCtx 0 exBigRoomChat exRoomMsg "other@x" "displayed"
      rfl (by decide)).1 (by decide),
   (C4_room_growth_guard exCtx 0 exBigRoomChat exRoomMsg "me@x" "displayed"
      rfl (by decide)).2 rfl⟩

/-- C5: `getMessageIdToMark` returns, for a groupchat message, the
room-scoped stanza id when one is present (a non-empty string under
the key for the room's bare JID) and the client-generated `msgid`
otherwise; for a non-groupchat message it always returns `msgid`. -/
theorem C5_getMessageIdToMark_key_derivation (m : Message) (s : String) :
    (m.type = "groupchat" →
      objGet m.stanza_ids (getBareJidFromJid m.from_) = some s → s ≠ "" →
      getMessageIdToMark m = s) ∧
    (m.type = "groupchat" →
      objGet m.stanza_ids (getBareJidFromJid m.from_) = none →
      getMessageIdToMark m = m.msgid) ∧
    (m.type ≠ "groupchat" → getMessageIdToMark m = m.msgid) := by
  refine ⟨?_, ?_, ?_⟩
  · intro h1 h2 h3
    simp [getMessageIdToMark, h1, h2, jsOr, h3]
  · intro h1 h2
    simp [getMessageIdToMark, h1, h2, jsOr]
  · intro h1
    simp [getMessageIdToMark, h1]

/-- C5 witness: the three cases at concrete messages. -/
theorem C5_getMessageIdToMark_key_derivation_witness :
    getMessageIdToMark exRoomMsg = "s1" ∧
    getMessageIdToMark ({ exRoomMsg with stanza_ids := [] }) = "mm1" ∧
    getMessageIdToMark exMsg1 = "m1" :=
  ⟨(C5_getMessageIdToMark_key_derivation exRoomMsg "s1").1 rfl rfl (by decide),
   (C5_getMessageIdToMark_key_derivation
      ({ exRoomMsg with stanza_ids := [] }) "").2.1 rfl rfl,
   (C5_getMessageIdToMark_key_derivation exMsg1 "").2.2 (by decide)⟩

/-- C9, amended: a level outside the closed set makes the call halt with
the `TypeError` and never mutates the store, except that in
`addChatMarker` the room-growth guard of lines 31-42 runs first: when
it fires (room, non-local acknowledger, occupant count above the
ceiling), the call returns nothing instead of raising. The store is
unchanged in every case, and `sendMarkerForMUCMessage` always raises,
since it validates before anything else. -/
theorem C9_invalid_level_rejection_amended (ctx : Ctx) (now : Nat)
    (chat : Chat) (message : Message) (by_jid type : String)
    (msg : Option Message) (h : type ∉ markerTypeKeys) :
    (¬(chat.type = CHATROOMS_TYPE ∧ by_jid ≠ ctx.bare_jid ∧
        chat.occupants > ctx.muc_chat_markers_limit) →
      addChatMarker ctx now chat message by_jid type
        = .error "Invalid XEP-0333 chat marker type") ∧
    ((chat.type = CHATROOMS_TYPE ∧ by_jid ≠ ctx.bare_jid ∧
        chat.occupants > ctx.muc_chat_markers_limit) →
      addChatMarker ctx now chat message by_jid type
        = .ok (chat.markers, none)) ∧
    storeAfter ctx now chat message by_jid type = chat.markers ∧
    sendMarkerForMUCMessage ctx chat msg type
      = .error "Invalid XEP-0333 chat marker type" := by
  have hcore : addChatMarkerCore now chat message by_jid type
      = .error "Invalid XEP-0333 chat marker type" := by
    unfold addChatMarkerCore
    rw [if_pos h]
  refine ⟨?_, ?_, ?_, ?_⟩
  · intro hg
    unfold addChatMarker
    rw [if_neg hg]
    exact hcore
  · intro hg
    unfold addChatMarker
    rw [if_pos hg]
  · unfold storeAfter
    by_cases hg : chat.type = CHATROOMS_TYPE ∧ by_jid ≠ ctx.bare_jid ∧
        chat.occupants > ctx.muc_chat_markers_limit
    · unfold addChatMarker
      rw [if_pos hg]
    · unfold addChatMarker
      rw [if_neg hg, hcore]
  · unfold sendMarkerForMUCMessage
    rw [if_pos h]

/-- C9 witness for the amended statement: with the guard not firing, the
invalid level `bogus` raises in both entry points. -/
theorem C9_invalid_level_rejection_amended_witness :
    addChatMarker exCtx 0 exChat exMsg1 "p@x" "bogus"
      = .error "Invalid XEP-0333 chat marker type" ∧
    sendMarkerForMUCMessage exCtx exChat (some exMsg1) "bogus"
      = .error "Invalid XEP-0333 chat marker type" :=
  ⟨(C9_invalid_level_rejection_amended exCtx 0 exChat exMsg1 "p@x" "bogus"
      (some exMsg1) (by decide)).1 (by decide),
   (C9_invalid_level_rejection_amended exCtx 0 exChat exMsg1 "p@x" "bogus"
      (some exMsg1) (by decide)).2.2.2⟩

theorem storeAfter_guard (ctx : Ctx) (now : Nat) (chat : Chat)
    (message : Message) (by_jid type : String)
    (hg : chat.type = CHATROOMS_TYPE ∧ by_jid ≠ ctx.bare_jid ∧
      chat.occupants > ctx.muc_chat_markers_limit) :
    storeAfter ctx now chat message by_jid type = chat.markers := by
  simp only [storeAfter, addChatMarker]
  rw [if_pos hg]

theorem storeAfter_invalid (ctx : Ctx) (now : Nat) (chat : Chat)
    (message : Message) (by_jid type : String)
    (ht : type ∉ markerTypeKeys) :
    storeAfter ctx now chat message by_jid type = chat.markers := by
  simp only [storeAfter, addChatMarker, addChatMarkerCore]
  by_cases hg : chat.type = CHATROOMS_TYPE ∧ by_jid ≠ ctx.bare_jid ∧
      chat.occupants > ctx.muc_chat_markers_limit
  · rw [if_pos hg]
  · rw [if_neg hg, if_pos ht]

theorem storeAfter_merge (ctx : Ctx) (now : Nat) (chat : Chat)
    (message : Message) (by_jid type : String) (found : ChatMarker)
    (hg : ¬(chat.type = CHATROOMS_TYPE ∧ by_jid ≠ ctx.bare_jid ∧
      chat.occupants > ctx.muc_chat_markers_limit))
    (ht : type ∈ markerTypeKeys)
    (hf : chat.markers.find? (fun m => m.id == getMessageIdToMark message)
      = some found) :
    storeAfter ctx now chat message by_jid type
      = updateFirst chat.markers (getMessageIdToMark message)
          ({ found with marked_by := objSet found.marked_by by_jid type }) := by
  simp only [storeAfter, addChatMarker, addChatMarkerCore]
  rw [if_neg hg, if_neg (not_not_intro ht), hf]

theorem storeAfter_create (ctx : Ctx) (now : Nat) (chat : Chat)
    (message : Message) (by_jid type : String)
    (hg : ¬(chat.type = CHATROOMS_TYPE ∧ by_jid ≠ ctx.bare_jid ∧
      chat.occupants > ctx.muc_chat_markers_limit))
    (ht : type ∈ markerTypeKeys)
    (hf : chat.markers.find? (fun m => m.id == getMessageIdToMark message)
      = none) :
    storeAfter ctx now chat message by_jid type
      = removeJidFromFirstMarker chat.markers by_jid
        ++ [⟨getMessageIdToMark message, [(by_jid, type)],
             jsSetMilliseconds now message.time⟩] := by
  simp only [storeAfter, addChatMarker, addChatMarkerCore]
  rw [if_neg hg, if_neg (not_not_intro ht), hf]

/-- C6: applying `addChatMarker` twice with the identical argument tuple
(at arbitrary wall-clock instants) yields a marker-store state
identical to applying it once: the second call always lands on the
merge branch (or repeats the guard/error no-op) and overwrites the
same entry with the same level. -/
theorem C6_addChatMarker_idempotent (ctx : Ctx) (now1 now2 : Nat)
    (chat : Chat) (message : Message) (by_jid type : String) :
    storeAfter ctx now2
      ({ chat with markers := storeAfter ctx now1 chat message by_jid type })
      message by_jid type
      = storeAfter ctx now1 chat message by_jid type := by
  by_cases hg : chat.type = CHATROOMS_TYPE ∧ by_jid ≠ ctx.bare_jid ∧
      chat.occupants > ctx.muc_chat_markers_limit
  · rw [storeAfter_guard ctx now1 chat message by_jid type hg]
    exact storeAfter_guard ctx now2 chat message by_jid type hg
  · by_cases ht : type ∈ markerTypeKeys
    · cases hf : chat.markers.find?
          (fun m => m.id == getMessageIdToMark message) with
      | some found =>
        have hfid : found.id = getMessageIdToMark message := by
          have := List.find?_some hf
          simpa using this
        have h1 := storeAfter_merge ctx now1 chat message by_jid type found hg ht hf
        have hf2 : (storeAfter ctx now1 chat message by_jid type).find?
            (fun m => m.id == getMessageIdToMark message)
            = some ({ found with marked_by := objSet found.marked_by by_jid type }) := by
          rw [h1]
          exact find?_updateFirst _ _ _ _ hf hfid
        have h2 := storeAfter_merge ctx now2
          ({ chat with markers := storeAfter ctx now1 chat message by_jid type })
          message by_jid type
          ({ found with marked_by := objSet found.marked_by by_jid type })
          hg ht hf2
        rw [h2, h1]
        rw [objSet_objSet_same]
        exact updateFirst_idem _ _ _ hfid
      | none =>
        have h1 := storeAfter_create ctx now1 chat message by_jid type hg ht hf
        have hfrm : (removeJidFromFirstMarker chat.markers by_jid).find?
            (fun m => m.id == getMessageIdToMark message) = none :=
          find?_removeJid_none _ _ _ hf
        have hf2 : (storeAfter ctx now1 chat message by_jid type).find?
            (fun m => m.id == getMessageIdToMark message)
            = some ⟨getMessageIdToMark message, [(by_jid, type)],
                jsSetMilliseconds now1 message.time⟩ := by
          rw [h1, find?_append_none _ _ _ hfrm]
          simp [List.find?]
        have h2 := storeAfter_merge ctx now2
          ({ chat with markers := storeAfter ctx now1 chat message by_jid type })
          message by_jid type
          (⟨getMessageIdToMark message, [(by_jid, type)],
            jsSetMilliseconds now1 message.time⟩)
          hg ht hf2
        rw [h2, h1]
        have hset : objSet [(by_jid, type)] by_jid type = [(by_jid, type)] := by
          simp [objSet]
        rw [hset]
        refine updateFirst_append_self _ _ _ _ ?_ rfl
        intro x hx
        have := (List.find?_eq_none.1 hfrm) x hx
        simpa using this
    · rw [storeAfter_invalid ctx now1 chat message by_jid type ht]
      exact storeAfter_invalid ctx now2 chat message by_jid type ht

/-- C1, amended: after a call to `addChatMarker`, a participant P appears
in the `marked_by` mapping of at most one Marker Record, provided P
did so before the call and — in the case where the acknowledging
participant is P and the marked message already has a Marker Record —
P does not currently appear in a record other than that one. In the
excluded case (P's marker lands on an existing record while P points
elsewhere) the merge branch of lines 53-56 does not relocate P's
previous entry and P ends up in two records, as the counterexample
shows; every other call shape preserves the bound. -/
theorem C1_single_pointer_amended (ctx : Ctx) (now : Nat) (chat : Chat)
    (message : Message) (by_jid type P : String)
    (h1 : countMarked chat.markers P ≤ 1)
    (h2 : by_jid = P →
      ∀ found, chat.markers.find?
          (fun m => m.id == getMessageIdToMark message) = some found →
        ∀ m ∈ chat.markers, isMarkedBy m P = true → found = m) :
    countMarked (storeAfter ctx now chat message by_jid type) P ≤ 1 := by
  by_cases hg : chat.type = CHATROOMS_TYPE ∧ by_jid ≠ ctx.bare_jid ∧
      chat.occupants > ctx.muc_chat_markers_limit
  · rw [storeAfter_guard ctx now chat message by_jid type hg]
    exact h1
  · by_cases ht : type ∈ markerTypeKeys
    · cases hf : chat.markers.find?
          (fun m => m.id == getMessageIdToMark message) with
      | some found =>
        rw [storeAfter_merge ctx now chat message by_jid type found hg ht hf]
        by_cases hP : by_jid = P
        · subst hP
          by_cases hfm : isMarkedBy found by_jid
          · exact countMarked_updateFirst_found _ _ _ found _ h1 hf hfm
          · refine countMarked_updateFirst_all_false _ _ _ _ ?_
            intro m hm
            by_cases hmm : isMarkedBy m by_jid
            · have heq := h2 rfl found hf m hm hmm
              rw [heq] at hfm
              exact absurd hmm hfm
            · simpa using hmm
        · have heq : isMarkedBy
              ({ found with marked_by := objSet found.marked_by by_jid type }) P
              = isMarkedBy found P := by
            simp [isMarkedBy,
              objGet_objSet_ne found.marked_by by_jid P type
                (fun h => hP h.symm)]
          rw [countMarked_updateFirst_of_eq _ _ _ found _ hf heq]
          exact h1
      | none =>
        rw [storeAfter_create ctx now chat message by_jid type hg ht hf]
        rw [countMarked_append]
        by_cases hP : by_jid = P
        · subst hP
          rw [countMarked_removeJid_self _ _ h1]
          have hone : countMarked
              [⟨getMessageIdToMark message, [(by_jid, type)],
                jsSetMilliseconds now message.time⟩] by_jid ≤ 1 := by
            rw [countMarked_cons, countMarked_nil]
            by_cases hb : isMarkedBy
                (⟨getMessageIdToMark message, [(by_jid, type)],
                  jsSetMilliseconds now message.time⟩ : ChatMarker) by_jid <;>
              simp [hb]
          omega
        · rw [countMarked_removeJid_other _ _ _ (fun h => hP h.symm)]
          have hzero : countMarked
              [⟨getMessageIdToMark message, [(by_jid, type)],
                jsSetMilliseconds now message.time⟩] P = 0 := by
            rw [countMarked_cons, countMarked_nil]
            simp [isMarkedBy, objGet, hP, truthyStr]
          omega
    · rw [storeAfter_invalid ctx now chat message by_jid type ht]
      exact h1

/-- C1 witness for the amended statement, at a fresh store. -/
theorem C1_single_pointer_amended_witness :
    countMarked (storeAfter exCtx 0 exChat exMsg1 "p@x" "displayed") "p@x"
      ≤ 1 := by
  apply C1_single_pointer_amended exCtx 0 exChat exMsg1 "p@x" "displayed" "p@x"
    (by decide)
  intro _ found hf
  simp [exChat, List.find?] at hf

theorem markedLevel_after_valid (ctx : Ctx) (now : Nat) (chat : Chat)
    (message : Message) (by_jid type : String)
    (hg : ¬(chat.type = CHATROOMS_TYPE ∧ by_jid ≠ ctx.bare_jid ∧
      chat.occupants > ctx.muc_chat_markers_limit))
    (ht : type ∈ markerTypeKeys) :
    markedLevelInStore (storeAfter ctx now chat message by_jid type)
      (getMessageIdToMark message) by_jid = some type := by
  cases hf : chat.markers.find?
      (fun m => m.id == getMessageIdToMark message) with
  | some found =>
    rw [storeAfter_merge ctx now chat message by_jid type found hg ht hf]
    unfold markedLevelInStore
    have hfid : found.id = getMessageIdToMark message := by
      simpa using List.find?_some hf
    rw [find?_updateFirst chat.markers (getMessageIdToMark message)
        ({ found with marked_by := objSet found.marked_by by_jid type })
        found hf hfid]
    simp [objGet_objSet_self]
  | none =>
    rw [storeAfter_create ctx now chat message by_jid type hg ht hf]
    unfold markedLevelInStore
    rw [find?_append_none _ _ _ (find?_removeJid_none _ _ _ hf)]
    simp [List.find?, objGet]


/-- C10: in `sendMarkerForLastMessage`, a successful send at level
`received` or `acknowledged` transmits a stanza carrying that level,
but the local Marker Record created afterwards credits the local user
at `displayed` — line 101 calls `addChatMarker(chat, msg, bare_jid)`
with the `type` argument omitted, so the JS default applies — hence
the level stored locally differs from the level transmitted. -/
theorem C10_sendMarkerForLastMessage_level_mismatch (ctx : Ctx) (now : Nat)
    (chat : Chat) (type : String) (msg : Message)
    (htype : type = "received" ∨ type = "acknowledged")
    (hfind : (chat.messages.reverse).find? (fun m => false || m.is_markable)
      = some msg)
    (hsend : type ∈ ctx.send_chat_markers) :
    ((sendMarkerForLastMessage ctx now chat type false).toOption.map
        (fun r => r.2.map (fun st => st.marker_type))) = some [type] ∧
    ((sendMarkerForLastMessage ctx now chat type false).toOption.map
        (fun r => markedLevelInStore r.1 (getMessageIdToMark msg)
            ctx.bare_jid)) = some (some "displayed") ∧
    type ≠ "displayed" := by
  have hmark : msg.is_markable = true := by simpa using List.find?_some hfind
  have hgg : ¬(chat.type = CHATROOMS_TYPE ∧ ctx.bare_jid ≠ ctx.bare_jid ∧
      chat.occupants > ctx.muc_chat_markers_limit) := fun h => h.2.1 rfl
  have hdisp : ("displayed" : String) ∈ markerTypeKeys := by decide
  have hsendeq : sendMarkerForMessage ctx (some msg) type false
      = (true, some (msgAfterSend ctx msg type),
         [sendChatMarker (getBareJidFromJid msg.from_) msg.msgid type
           msg.type]) := by
    simp only [sendMarkerForMessage]
    rw [if_neg (not_not_intro hsend)]
    have hcond : (msg.is_markable || false) = true := by simp [hmark]
    rw [if_pos hcond]
    rfl
  have hadd : ∃ r, addChatMarker ctx now chat (msgAfterSend ctx msg type)
      ctx.bare_jid "displayed"
      = .ok (storeAfter ctx now chat (msgAfterSend ctx msg type)
          ctx.bare_jid "displayed", r) := by
    simp only [addChatMarker, addChatMarkerCore, storeAfter]
    rw [if_neg hgg, if_neg (not_not_intro hdisp)]
    cases hf : chat.markers.find?
        (fun m => m.id == getMessageIdToMark (msgAfterSend ctx msg type)) with
    | some found => exact ⟨_, rfl⟩
    | none => exact ⟨_, rfl⟩
  obtain ⟨r, hadd⟩ := hadd
  have hmain : sendMarkerForLastMessage ctx now chat type false
      = .ok (storeAfter ctx now chat (msgAfterSend ctx msg type)
          ctx.bare_jid "displayed",
          [sendChatMarker (getBareJidFromJid msg.from_) msg.msgid type
            msg.type]) := by
    simp only [sendMarkerForLastMessage]
    rw [hfind]
    dsimp only
    rw [hsendeq]
    dsimp only [Option.getD]
    rw [hadd]
  refine ⟨?_, ?_, ?_⟩
  · rw [hmain]
    simp [Except.toOption, sendChatMarker]
  · rw [hmain]
    simp only [Except.toOption, Option.map]
    have hlvl := markedLevel_after_valid ctx now chat (msgAfterSend ctx msg type)
      ctx.bare_jid "displayed" hgg hdisp
    have hkey : getMessageIdToMark (msgAfterSend ctx msg type)
        = getMessageIdToMark msg := rfl
    rw [hkey] at hlvl
    rw [hlvl]
  · rcases htype with h | h <;> subst h <;> decide

/-- C10 witness: a `received`-level send in a concrete direct chat. -/
theorem C10_sendMarkerForLastMessage_level_mismatch_witness :
    ((sendMarkerForLastMessage exCtx 0 exChat "received" false).toOption.map
        (fun r => r.2.map (fun st => st.marker_type))) = some ["received"] ∧
    ((sendMarkerForLastMessage exCtx 0 exChat "received" false).toOption.map
        (fun r => markedLevelInStore r.1 (getMessageIdToMark exMsg2)
            exCtx.bare_jid)) = some (some "displayed") ∧
    ("received" : String) ≠ "displayed" :=
  C10_sendMarkerForLastMessage_level_mismatch exCtx 0 exChat "received" exMsg2
    (Or.inl rfl) rfl (by decide)
